import Mathlib

/-!
Verification of the Object-Relations code challenge: a shallow embedding of
the three entity classes (`Author`, `Magazine`, `Article`) from `src/lib`,
their SQLite-backed persistence layer (`database_utils.py`), and proofs of
the specification's claims about them.

Modelling conventions:
  * Python `None` becomes `Option.none`; a Python value that may be absent
    has an `Option` type.
  * Raising an exception becomes returning `Except.error msg`; `msg` is the
    message text from the source.
  * A SQLite table becomes a list of row structures plus a `next…Id`
    counter modelling `AUTOINCREMENT` (ids are handed out in increasing
    order and never reused).  Columns declared `NOT NULL` are plain fields
    of the row structure; nullable columns are `Option` fields.  The
    `NOT NULL`, `UNIQUE` and foreign-key constraints of the schema created
    by `create_tables` are enforced by the insert/update models.
  * `str.strip()` becomes `pyStrip`, written over the character list so the
    kernel can evaluate it on concrete strings.
-/

/-- Python's `str.strip()`: remove leading and trailing whitespace. -/
def pyStrip (s : String) : String :=
  ⟨((s.data.dropWhile Char.isWhitespace).reverse.dropWhile Char.isWhitespace).reverse⟩

/-! ## Database rows and state (the SQLite store of `database_utils.py`) -/

/-- A row of the `authors` table: `id PK AUTOINCREMENT, name TEXT NOT NULL,
email TEXT UNIQUE NOT NULL`. -/
structure AuthorRow where
  id : Nat
  name : String
  email : String
deriving DecidableEq

/-- A row of the `magazines` table: `id PK AUTOINCREMENT, title TEXT NOT NULL,
category TEXT NOT NULL`.  (The column is named `title` even though the entity
field is `name`.) -/
structure MagazineRow where
  id : Nat
  title : String
  category : String
deriving DecidableEq

/-- A row of the `articles` table: `id PK AUTOINCREMENT, title TEXT NOT NULL,
content TEXT, author_id INTEGER NOT NULL FK, magazine_id INTEGER NOT NULL FK`. -/
structure ArticleRow where
  id : Nat
  title : String
  content : Option String
  author_id : Nat
  magazine_id : Nat
deriving DecidableEq

/-- The state of the SQLite database: the three tables together with the
`AUTOINCREMENT` counters (`sqlite_sequence`). -/
structure DB where
  authors : List AuthorRow
  magazines : List MagazineRow
  articles : List ArticleRow
  nextAuthorId : Nat
  nextMagazineId : Nat
  nextArticleId : Nat
deriving DecidableEq

/-- A freshly created database, as produced by `create_tables` on a new
connection: all three tables empty, `AUTOINCREMENT` counters at 1. -/
def emptyDB : DB := ⟨[], [], [], 1, 1, 1⟩

/-! ## Schema embedding (`database_utils.create_tables`)

Column SQL types are elided; what is embedded is exactly what the spec's
schema section talks about: primary keys, `NOT NULL`, `UNIQUE`, and
foreign keys with their delete behaviour. -/

/-- A column-level constraint appearing in `create_tables`. -/
inductive ColConstraint where
  | primaryKeyAutoincrement
  | notNull
  | unique
deriving DecidableEq

/-- A column of a table: its name and its constraints, in source order. -/
structure Column where
  name : String
  constraints : List ColConstraint
deriving DecidableEq

/-- A foreign-key clause: the referencing column, the referenced table, and
whether the clause carries `ON DELETE CASCADE`. -/
structure ForeignKey where
  column : String
  refTable : String
  onDeleteCascade : Bool
deriving DecidableEq

/-- A table definition. -/
structure Table where
  name : String
  columns : List Column
  foreignKeys : List ForeignKey
deriving DecidableEq

/-- The `authors` table exactly as `create_tables` declares it:
`id INTEGER PRIMARY KEY AUTOINCREMENT, name TEXT NOT NULL,
email TEXT UNIQUE NOT NULL`. -/
def authorsTable : Table :=
  ⟨"authors",
   [⟨"id", [ColConstraint.primaryKeyAutoincrement]⟩,
    ⟨"name", [ColConstraint.notNull]⟩,
    ⟨"email", [ColConstraint.unique, ColConstraint.notNull]⟩],
   []⟩

/-- The `magazines` table exactly as `create_tables` declares it. -/
def magazinesTable : Table :=
  ⟨"magazines",
   [⟨"id", [ColConstraint.primaryKeyAutoincrement]⟩,
    ⟨"title", [ColConstraint.notNull]⟩,
    ⟨"category", [ColConstraint.notNull]⟩],
   []⟩

/-- The `articles` table exactly as `create_tables` declares it, with both
foreign keys `ON DELETE CASCADE`. -/
def articlesTable : Table :=
  ⟨"articles",
   [⟨"id", [ColConstraint.primaryKeyAutoincrement]⟩,
    ⟨"title", [ColConstraint.notNull]⟩,
    ⟨"content", []⟩,
    ⟨"author_id", [ColConstraint.notNull]⟩,
    ⟨"magazine_id", [ColConstraint.notNull]⟩],
   [⟨"author_id", "authors", true⟩, ⟨"magazine_id", "magazines", true⟩]⟩

/-- Modelled from the spec: the external-interface section's `authors` table,
`authors(id PK autoincrement, name NOT NULL, email)` — the `email` column
carries no constraint. -/
def specAuthorsTable : Table :=
  ⟨"authors",
   [⟨"id", [ColConstraint.primaryKeyAutoincrement]⟩,
    ⟨"name", [ColConstraint.notNull]⟩,
    ⟨"email", []⟩],
   []⟩

/-- Modelled from the spec: `magazines(id PK autoincrement, title NOT NULL,
category NOT NULL)`. -/
def specMagazinesTable : Table :=
  ⟨"magazines",
   [⟨"id", [ColConstraint.primaryKeyAutoincrement]⟩,
    ⟨"title", [ColConstraint.notNull]⟩,
    ⟨"category", [ColConstraint.notNull]⟩],
   []⟩

/-- Modelled from the spec: `articles(id PK autoincrement, title NOT NULL,
content, author_id NOT NULL FK→authors.id, magazine_id NOT NULL
FK→magazines.id)`, foreign keys cascading on delete. -/
def specArticlesTable : Table :=
  ⟨"articles",
   [⟨"id", [ColConstraint.primaryKeyAutoincrement]⟩,
    ⟨"title", [ColConstraint.notNull]⟩,
    ⟨"content", []⟩,
    ⟨"author_id", [ColConstraint.notNull]⟩,
    ⟨"magazine_id", [ColConstraint.notNull]⟩],
   [⟨"author_id", "authors", true⟩, ⟨"magazine_id", "magazines", true⟩]⟩

/-! ## In-memory entities -/

/-- `Author` (`lib/author.py`): `id`, private `_name`, `email`. -/
structure Author where
  id : Option Nat
  name : Option String
  email : Option String
deriving DecidableEq

/-- `Author.__init__`: when a name is provided it must be a non-string-free
model, so the name argument is an `Option String` (`Option.none` = Python
`None`, skipping validation).  A provided name that is empty or
whitespace-only after stripping is rejected; otherwise the name is stored
AS GIVEN (the source assigns `self._name = name`, not `name.strip()`). -/
def Author.init (id : Option Nat) (name : Option String) (email : Option String) :
    Except String Author :=
  match name with
  | Option.none => Except.ok ⟨id, Option.none, email⟩
  | some n =>
      if pyStrip n = "" then Except.error ("Author name cannot be empty.")
      else Except.ok ⟨id, some n, email⟩

/-- Attempting `author.name = value`: `Author.name` is a property with no
setter in the source, so Python raises `AttributeError` and the object is
unchanged. -/
def Author.assignName (_a : Author) (_value : String) : Except String Author :=
  Except.error ("AttributeError: can't set attribute")

/-- `Magazine` (`lib/magazine.py`): `id`, private `_name`, private
`_category`. -/
structure Magazine where
  id : Option Nat
  name : Option String
  category : Option String
deriving DecidableEq

/-- The `@name.setter` of `Magazine`: rejects an empty-after-strip string and
stores the STRIPPED value. -/
def Magazine.setName (m : Magazine) (value : String) : Except String Magazine :=
  if pyStrip value = "" then Except.error ("Magazine name cannot be empty.")
  else Except.ok { m with name := some (pyStrip value) }

/-- The `@category.setter` of `Magazine`: same rule as the name setter. -/
def Magazine.setCategory (m : Magazine) (value : String) : Except String Magazine :=
  if pyStrip value = "" then Except.error ("Magazine category cannot be empty.")
  else Except.ok { m with category := some (pyStrip value) }

/-- `Magazine.__init__`: sets `id`, then runs the two validating setters on
the string arguments. -/
def Magazine.init (id : Option Nat) (name : String) (category : String) :
    Except String Magazine := do
  let m0 : Magazine := ⟨id, Option.none, Option.none⟩
  let m1 ← m0.setName name
  m1.setCategory category

/-- `Article` (`lib/article.py`): `id`, private `_title`, `content`, and the
type-checked `author` / `magazine` references. -/
structure Article where
  id : Option Nat
  title : Option String
  content : Option String
  author : Option Author
  magazine : Option Magazine
deriving DecidableEq

/-- The `@title.setter` of `Article` — it exists and is public in the source:
rejects an empty-after-strip string and stores the STRIPPED value.  Assigning
`article.title = value` after construction runs exactly this. -/
def Article.setTitle (a : Article) (value : String) : Except String Article :=
  if pyStrip value = "" then Except.error ("Article title cannot be empty.")
  else Except.ok { a with title := some (pyStrip value) }

/-- `Article.__init__`: runs the title setter (a `None` title, modelled by
`Option.none`, fails its `isinstance` check with a `TypeError`), then stores
content and the author/magazine references (type-correct by construction in
this embedding; `Option.none` models Python `None`, which the setters
accept). -/
def Article.init (id : Option Nat) (title : Option String) (content : Option String)
    (author : Option Author) (magazine : Option Magazine) : Except String Article :=
  match title with
  | Option.none => Except.error ("Article title must be a string.")
  | some t =>
      if pyStrip t = "" then Except.error ("Article title cannot be empty.")
      else Except.ok ⟨id, some (pyStrip t), content, author, magazine⟩

/-! ## Lookup operations (`find_by_id`, `new_from_db`) -/

/-- `Author.new_from_db(row)`: rebuild the entity from a row, re-running the
constructor validation on the stored name. -/
def Author.new_from_db (r : AuthorRow) : Except String Author :=
  Author.init (some r.id) (some r.name) (some r.email)

/-- `Author.find_by_id(id)`: `SELECT * FROM authors WHERE id = ?`, then
`new_from_db` on the first matching row, or `None` when there is none. -/
def Author.find_by_id (i : Nat) (db : DB) : Except String (Option Author) :=
  match db.authors.find? (fun r => r.id = i) with
  | Option.none => Except.ok Option.none
  | some r => (Author.new_from_db r).map some

/-- `Magazine.new_from_db(row)`: the entity's `name` is loaded from the row's
`title` column, through the validating constructor. -/
def Magazine.new_from_db (r : MagazineRow) : Except String Magazine :=
  Magazine.init (some r.id) r.title r.category

/-- `Magazine.find_by_id(id)`: first row with the given id, rebuilt, or
`None`.  (In production mode it also closes its connection; the shared
test handle is left open — see the connection-lifecycle model below.) -/
def Magazine.find_by_id (i : Nat) (db : DB) : Except String (Option Magazine) :=
  match db.magazines.find? (fun r => r.id = i) with
  | Option.none => Except.ok Option.none
  | some r => (Magazine.new_from_db r).map some

/-- `Article.new_from_db(row)`: resolves the author and magazine references
via their `find_by_id`, then runs the `Article` constructor. -/
def Article.new_from_db (r : ArticleRow) (db : DB) : Except String Article := do
  let author ← Author.find_by_id r.author_id db
  let magazine ← Magazine.find_by_id r.magazine_id db
  Article.init (some r.id) (some r.title) r.content author magazine

/-- `Article.find_by_id(id)`: first row with the given id, fully resolved, or
`None`.  (The source closes its connection unconditionally here — see the
connection-lifecycle model below.) -/
def Article.find_by_id (i : Nat) (db : DB) : Except String (Option Article) :=
  match db.articles.find? (fun r => r.id = i) with
  | Option.none => Except.ok Option.none
  | some r => (Article.new_from_db r db).map some

/-! ## Save operations (INSERT / UPDATE)

The save methods execute a single INSERT or UPDATE and commit.  SQLite
enforces the schema's `NOT NULL` / `UNIQUE` / foreign-key constraints
(`PRAGMA foreign_keys = ON` is set by `create_tables`), so the models check
them; a violated constraint raises, modelled as `Except.error`.  An UPDATE
whose `WHERE id = ?` matches no row simply affects zero rows. -/

/-- `Author.save()`: INSERT when `id` is `None` (assigning
`cursor.lastrowid` to `self.id`), UPDATE of the row matching `id`
otherwise. -/
def Author.save (a : Author) (db : DB) : Except String (Author × DB) :=
  match a.id with
  | Option.none =>
      match a.name, a.email with
      | some n, some e =>
          if db.authors.any (fun r => r.email = e) then
            Except.error ("UNIQUE constraint failed: authors.email")
          else
            Except.ok ({ a with id := some db.nextAuthorId },
              { db with
                  authors := db.authors ++ [⟨db.nextAuthorId, n, e⟩],
                  nextAuthorId := db.nextAuthorId + 1 })
      | _, _ => Except.error ("NOT NULL constraint failed: authors")
  | some i =>
      if db.authors.any (fun r => r.id = i) then
        match a.name, a.email with
        | some n, some e =>
            if db.authors.any (fun r => r.id ≠ i ∧ r.email = e) then
              Except.error ("UNIQUE constraint failed: authors.email")
            else
              Except.ok (a,
                { db with
                    authors := db.authors.map
                      (fun r => if r.id = i then ⟨i, n, e⟩ else r) })
        | _, _ => Except.error ("NOT NULL constraint failed: authors")
      else Except.ok (a, db)

/-- `Magazine.save()`: INSERT (storing `name` into the `title` column) when
`id` is `None`, UPDATE of the row matching `id` otherwise. -/
def Magazine.save (m : Magazine) (db : DB) : Except String (Magazine × DB) :=
  match m.id with
  | Option.none =>
      match m.name, m.category with
      | some n, some c =>
          Except.ok ({ m with id := some db.nextMagazineId },
            { db with
                magazines := db.magazines ++ [⟨db.nextMagazineId, n, c⟩],
                nextMagazineId := db.nextMagazineId + 1 })
      | _, _ => Except.error ("NOT NULL constraint failed: magazines")
  | some i =>
      if db.magazines.any (fun r => r.id = i) then
        match m.name, m.category with
        | some n, some c =>
            Except.ok (m,
              { db with
                  magazines := db.magazines.map
                    (fun r => if r.id = i then ⟨i, n, c⟩ else r) })
        | _, _ => Except.error ("NOT NULL constraint failed: magazines")
      else Except.ok (m, db)

/-- `Article.save()`: first the source's own precondition check —
`if not self.author or not self.magazine: raise ValueError(...)` — executed
BEFORE any database access, so a failure leaves the database untouched.
Then INSERT (with `author.id` / `magazine.id` as foreign keys) or UPDATE by
id.  The foreign-key columns are `NOT NULL` and referential (`PRAGMA
foreign_keys = ON`), so an absent or dangling id raises at the statement. -/
def Article.save (art : Article) (db : DB) : Except String (Article × DB) :=
  match art.author, art.magazine with
  | Option.none, _ =>
      Except.error ("Article must have an author and a magazine before saving.")
  | _, Option.none =>
      Except.error ("Article must have an author and a magazine before saving.")
  | some au, some mag =>
      match art.id with
      | Option.none =>
          match art.title, au.id, mag.id with
          | some t, some aid, some mid =>
              if db.authors.any (fun r => r.id = aid) then
                if db.magazines.any (fun r => r.id = mid) then
                  Except.ok ({ art with id := some db.nextArticleId },
                    { db with
                        articles := db.articles ++
                          [⟨db.nextArticleId, t, art.content, aid, mid⟩],
                        nextArticleId := db.nextArticleId + 1 })
                else Except.error ("FOREIGN KEY constraint failed")
              else Except.error ("FOREIGN KEY constraint failed")
          | _, _, _ => Except.error ("NOT NULL constraint failed: articles")
      | some i =>
          if db.articles.any (fun r => r.id = i) then
            match art.title, au.id, mag.id with
            | some t, some aid, some mid =>
                if db.authors.any (fun r => r.id = aid) then
                  if db.magazines.any (fun r => r.id = mid) then
                    Except.ok (art,
                      { db with
                          articles := db.articles.map
                            (fun r => if r.id = i then
                              ⟨i, t, art.content, aid, mid⟩ else r) })
                  else Except.error ("FOREIGN KEY constraint failed")
                else Except.error ("FOREIGN KEY constraint failed")
            | _, _, _ => Except.error ("NOT NULL constraint failed: articles")
          else Except.ok (art, db)

/-! ## Aggregate queries and `add_article` -/

/-- The articles of the `articles` table belonging to a given magazine id
parameter (`WHERE magazine_id = ?`); a `None` parameter (never-saved
magazine) matches no row, as SQL `= NULL` does. -/
def articlesOfMagazine (db : DB) (mid : Option Nat) : List ArticleRow :=
  db.articles.filter (fun a => mid = some a.magazine_id)

/-- `COUNT(id)` of articles with the given `magazine_id`. -/
def articleCountOfMagazine (db : DB) (mid : Nat) : Nat :=
  (db.articles.filter (fun a => a.magazine_id = mid)).length

/-- `COUNT(id)` of articles by the given author inside
`articlesOfMagazine db mid`. -/
def articleCountByAuthorIn (db : DB) (mid : Option Nat) (aid : Nat) : Nat :=
  ((articlesOfMagazine db mid).filter (fun a => a.author_id = aid)).length

/-- `Magazine.contributing_authors()`: one query that groups this magazine's
articles by `author_id` keeping the groups with `COUNT(id) > 2`, then a
`find_by_id` per returned id (each may come back `None`). -/
def Magazine.contributing_authors (m : Magazine) (db : DB) :
    Except String (List (Option Author)) :=
  let arts := articlesOfMagazine db m.id
  let bigIds := ((arts.map (fun a => a.author_id)).dedup).filter
    (fun aid => 2 < (arts.filter (fun a => a.author_id = aid)).length)
  bigIds.mapM (fun aid => Author.find_by_id aid db)

/-- The result row of `SELECT magazine_id, COUNT(id) ... GROUP BY magazine_id
ORDER BY total_articles DESC LIMIT 1`: a `(magazine_id, count)` pair with
maximal count among the groups, or nothing when there are no articles.
SQLite leaves the choice among tied groups unspecified; this model keeps the
first maximal group, which agrees with SQLite whenever the maximum is
strict. -/
def topGroup (l : List (Nat × Nat)) : Option (Nat × Nat) :=
  match l with
  | [] => Option.none
  | p :: ps => some (ps.foldl (fun best q => if best.2 < q.2 then q else best) p)

/-- The grouped rows of `top_publisher`'s query, one per distinct
`magazine_id` occurring in `articles`. -/
def magazineGroups (db : DB) : List (Nat × Nat) :=
  ((db.articles.map (fun a => a.magazine_id)).dedup).map
    (fun mid => (mid, articleCountOfMagazine db mid))

/-- `Magazine.top_publisher()` (classmethod): run the grouped count query;
when it returns no row (empty `articles` table) answer `None`, otherwise
resolve the winning `magazine_id` with `find_by_id`. -/
def Magazine.top_publisher (db : DB) : Except String (Option Magazine) :=
  match topGroup (magazineGroups db) with
  | Option.none => Except.ok Option.none
  | some g => Magazine.find_by_id g.1 db

/-- The `magazine` argument of `Author.add_article`: either an actual
`Magazine` entity or any other Python value (failing the `isinstance`
check). -/
inductive MagazineArg where
  | mag (m : Magazine)
  | notMagazine
deriving DecidableEq

/-- `Author.add_article(magazine, title)`: `TypeError` before anything is
built or persisted when the argument is not a `Magazine`; otherwise
construct `Article(title=title, content="", author=self, magazine=magazine)`
and `save()` it, returning the article. -/
def Author.add_article (au : Author) (arg : MagazineArg) (title : Option String)
    (db : DB) : Except String (Article × DB) :=
  match arg with
  | MagazineArg.notMagazine =>
      Except.error ("magazine must be a Magazine instance.")
  | MagazineArg.mag m => do
      let art ← Article.init Option.none title (some "") (some au) (some m)
      Article.save art db

/-! ## Connection lifecycle (`database_utils.get_connection` and the
per-method close behaviour)

In test (pytest) mode all operations share one in-memory handle; closing it
drops the in-memory database.  `get_connection` re-opens a closed shared
handle transparently, but the re-opened handle starts from a fresh empty
store (`create_tables` on a new in-memory database). -/

/-- The ordinary operations of the three entity classes. -/
inductive EntityOp where
  | authorSave
  | authorFindById
  | authorArticles
  | authorMagazines
  | authorAddArticle
  | authorTopicAreas
  | magazineSave
  | magazineFindById
  | magazineArticles
  | magazineContributors
  | magazineArticleTitles
  | magazineContributingAuthors
  | magazineTopPublisher
  | articleSave
  | articleFindById
deriving DecidableEq

/-- Whether the method body executes `conn.close()` when running in test
(shared-handle) mode, transcribed method by method from the source:
`author.py` never closes; every closing site in `magazine.py` is guarded by
`if "pytest" not in sys.modules`; `article.py`'s `find_by_id` and `save`
call `conn.close()` unconditionally. -/
def closesSharedHandleInTestMode : EntityOp → Bool
  | EntityOp.articleSave => true
  | EntityOp.articleFindById => true
  | _ => false

/-- The shared test-mode connection handle: whether it is open, and the
in-memory database reachable through it. -/
structure SharedConn where
  isOpen : Bool
  db : DB
deriving DecidableEq

/-- `get_connection()` in test mode, acting on the module-global
`_shared_connection`: create the handle on first use; reuse it while it
answers `SELECT 1`; when it was closed, transparently open a FRESH shared
in-memory database (the old data is gone) and re-create the tables. -/
def get_connection_test (shared : Option SharedConn) : SharedConn :=
  match shared with
  | Option.none => ⟨true, emptyDB⟩
  | some c => if c.isOpen then c else ⟨true, emptyDB⟩

/-- The shared handle after running one entity operation in test mode,
keeping only what the claim is about: whether the operation's final
`conn.close()` (when present and unguarded) closed the shared handle. -/
def sharedConnAfterOp (op : EntityOp) (c : SharedConn) : SharedConn :=
  if closesSharedHandleInTestMode op then { c with isOpen := false } else c

/-- Modelled from the spec as amended by the code: the `authors` table with
`email` additionally `UNIQUE NOT NULL`. -/
def specAmendedAuthorsTable : Table :=
  ⟨"authors",
   [⟨"id", [ColConstraint.primaryKeyAutoincrement]⟩,
    ⟨"name", [ColConstraint.notNull]⟩,
    ⟨"email", [ColConstraint.unique, ColConstraint.notNull]⟩],
   []⟩

/-- A small populated database shared by the concrete witnesses: one author,
one magazine, one article. -/
def sampleDB : DB :=
  ⟨[⟨1, "Ann", "ann@x.com"⟩], [⟨1, "Tech Weekly", "Technology"⟩],
   [⟨1, "Hello", some "body", 1, 1⟩], 2, 2, 2⟩

/-- A database where author 1 has three articles in magazine 1 and author 2
has one, exercising the `> 2` boundary of `contributing_authors`. -/
def sampleDB3 : DB :=
  ⟨[⟨1, "Ann", "ann@x.com"⟩, ⟨2, "Bob", "bob@x.com"⟩],
   [⟨1, "Tech Weekly", "Technology"⟩],
   [⟨1, "A1", Option.none, 1, 1⟩, ⟨2, "A2", Option.none, 1, 1⟩,
    ⟨3, "A3", Option.none, 1, 1⟩, ⟨4, "B1", Option.none, 2, 1⟩],
   3, 2, 5⟩

/-! ## Theorems -/

/-- Helper: in a list whose images under `f` are pairwise distinct, `find?`
with the predicate "same `f`-image as `x`" returns exactly the member `x`. -/
theorem find_eq_of_mem_nodup {α β : Type} [DecidableEq β] (f : α → β) (l : List α)
    (x : α) (hnd : (l.map f).Nodup) (hx : x ∈ l) :
    l.find? (fun y => f y = f x) = some x := by
  induction l with
  | nil => cases hx
  | cons a as ih =>
    rw [List.map_cons, List.nodup_cons] at hnd
    by_cases hfa : f a = f x
    · have hax : a = x := by
        rcases List.mem_cons.mp hx with h1 | h1
        · exact h1.symm
        · have hm : f a ∈ as.map f := by
            rw [hfa]
            exact List.mem_map_of_mem f h1
          exact absurd hm hnd.1
      rw [List.find?_cons_of_pos _ (by simpa using hfa), hax]
    · have hx' : x ∈ as := by
        rcases List.mem_cons.mp hx with h1 | h1
        · exact absurd (h1 ▸ rfl) hfa
        · exact h1
      rw [List.find?_cons_of_neg _ (by simpa using hfa)]
      exact ih hnd.2 hx'

/-- Helper: `Author.find_by_id` at the id of a present row whose stored name
survives validation returns that author. -/
theorem author_find_by_id_mem (db : DB) (r : AuthorRow)
    (hPK : (db.authors.map AuthorRow.id).Nodup) (hr : r ∈ db.authors)
    (hn : ¬ pyStrip r.name = "") :
    Author.find_by_id r.id db =
      Except.ok (some ⟨some r.id, some r.name, some r.email⟩) := by
  have hf := find_eq_of_mem_nodup AuthorRow.id db.authors r hPK hr
  simp [Author.find_by_id, hf, Author.new_from_db, Author.init, hn, Except.map]

/-- Helper: `Magazine.find_by_id` at the id of a present row whose stored
title and category survive validation returns that magazine. -/
theorem magazine_find_by_id_mem (db : DB) (r : MagazineRow)
    (hPK : (db.magazines.map MagazineRow.id).Nodup) (hr : r ∈ db.magazines)
    (ht : ¬ pyStrip r.title = "") (hc : ¬ pyStrip r.category = "") :
    Magazine.find_by_id r.id db =
      Except.ok (some ⟨some r.id, some (pyStrip r.title), some (pyStrip r.category)⟩) := by
  have hf := find_eq_of_mem_nodup MagazineRow.id db.magazines r hPK hr
  simp [Magazine.find_by_id, hf, Magazine.new_from_db, Magazine.init,
    Magazine.setName, Magazine.setCategory, ht, hc, Except.map, Bind.bind, Except.bind]

/-- C9 counterexample: the `authors` table that `create_tables` creates is
not the spec's `authors(id PK autoincrement, name NOT NULL, email)`; its
`email` column carries `UNIQUE` and `NOT NULL`. -/
theorem c9_schema_counterexample :
    authorsTable ≠ specAuthorsTable ∧
    (authorsTable.columns.find? (fun c => c.name = "email")).map Column.constraints =
      some [ColConstraint.unique, ColConstraint.notNull] := by
  constructor
  · decide
  · rfl

/-- C9 (amended): the tables created on first use are
`authors(id PK autoincrement, name NOT NULL, email UNIQUE NOT NULL)`,
`magazines(id PK autoincrement, title NOT NULL, category NOT NULL)` and
`articles(id PK autoincrement, title NOT NULL, content, author_id NOT NULL
FK→authors.id, magazine_id NOT NULL FK→magazines.id)`, both article foreign
keys cascading on delete. -/
theorem c9_schema_matches_amended :
    authorsTable = specAmendedAuthorsTable ∧
    magazinesTable = specMagazinesTable ∧
    articlesTable = specArticlesTable :=
  ⟨rfl, rfl, rfl⟩

/-- C5: evaluating the code at the failing input.  `Article.title` has a
public validating setter, so after constructing an article titled `"A"`,
the assignment `article.title = "B"` succeeds and changes the stored title
to `"B"` — no immutability error is raised, although the source's own
comments declare the property READ-ONLY.  (`Author.name` has no setter, so
its half of the claim does hold.) -/
theorem c5_article_title_reassignment_succeeds :
    Article.init Option.none (some ("A")) (some ("body")) Option.none Option.none =
      Except.ok ⟨Option.none, some ("A"), some ("body"), Option.none, Option.none⟩ ∧
    Article.setTitle ⟨Option.none, some ("A"), some ("body"), Option.none, Option.none⟩
        ("B") =
      Except.ok ⟨Option.none, some ("B"), some ("body"), Option.none, Option.none⟩ ∧
    (∀ a : Author, ∀ v : String, Author.assignName a v =
      Except.error ("AttributeError: can't set attribute")) := by
  refine ⟨rfl, rfl, fun a v => rfl⟩

/-- C3: evaluating the code at the failing input.  `Article.save` and
`Article.find_by_id` execute `conn.close()` unconditionally, so in test
mode they close the shared handle (every other entity operation leaves it
open); and once the shared handle is closed, `get_connection` re-opens it
as a FRESH empty in-memory database, losing the previous state. -/
theorem c3_article_ops_close_shared_handle :
    closesSharedHandleInTestMode EntityOp.articleSave = true ∧
    closesSharedHandleInTestMode EntityOp.articleFindById = true ∧
    (∀ op : EntityOp, op ≠ EntityOp.articleSave → op ≠ EntityOp.articleFindById →
      closesSharedHandleInTestMode op = false) ∧
    (∀ db : DB, (sharedConnAfterOp EntityOp.articleSave ⟨true, db⟩).isOpen = false) ∧
    (get_connection_test (some (sharedConnAfterOp EntityOp.articleSave
      ⟨true, sampleDB⟩))).db = emptyDB := by
  refine ⟨rfl, rfl, ?_, fun db => rfl, rfl⟩
  intro op h1 h2
  cases op <;> first | rfl | exact absurd rfl h1 | exact absurd rfl h2

/-- C4 counterexample: `Author.__init__` stores the provided name AS GIVEN
(`self._name = name`), so constructing an author with `" Ann "` and reading
`name` back yields `" Ann "`, not `" Ann ".strip() = "Ann"`. -/
theorem c4_author_name_not_stripped :
    Author.init Option.none (some (" Ann ")) (some ("ann@x.com")) =
      Except.ok ⟨Option.none, some (" Ann "), some ("ann@x.com")⟩ ∧
    pyStrip (" Ann ") = "Ann" ∧ (" Ann " : String) ≠ "Ann" := by
  refine ⟨rfl, by decide, by decide⟩

/-- C4 (amended): for every valid (non-empty-after-strip) string `s`,
Magazine's name and category and Article's title read back as `s.strip()`;
Author's name reads back as `s` itself — validated, but stored untrimmed. -/
theorem c4_readback_amended (s : String) (h : ¬ pyStrip s = "") :
    (∀ id e, Author.init id (some s) e = Except.ok ⟨id, some s, e⟩) ∧
    (∀ id c, ¬ pyStrip c = "" →
      Magazine.init id s c = Except.ok ⟨id, some (pyStrip s), some (pyStrip c)⟩) ∧
    (∀ id n, ¬ pyStrip n = "" →
      Magazine.init id n s = Except.ok ⟨id, some (pyStrip n), some (pyStrip s)⟩) ∧
    (∀ id content author magazine,
      Article.init id (some s) content author magazine =
        Except.ok ⟨id, some (pyStrip s), content, author, magazine⟩) := by
  refine ⟨fun id e => ?_, fun id c hc => ?_, fun id n hn => ?_,
    fun id content author magazine => ?_⟩
  · simp [Author.init, h]
  · simp [Magazine.init, Magazine.setName, Magazine.setCategory, h, hc,
      Bind.bind, Except.bind]
  · simp [Magazine.init, Magazine.setName, Magazine.setCategory, h, hn,
      Bind.bind, Except.bind]
  · simp [Article.init, h]

/-- C4 (amended) witness at `s = " Ann "`. -/
theorem c4_readback_amended_witness :
    Author.init Option.none (some (" Ann ")) (some ("e@x.com")) =
      Except.ok ⟨Option.none, some (" Ann "), some ("e@x.com")⟩ ∧
    Magazine.init Option.none (" Ann ") ("Tech") =
      Except.ok ⟨Option.none, some (pyStrip (" Ann ")), some (pyStrip ("Tech"))⟩ ∧
    Article.init Option.none (some (" Ann ")) Option.none Option.none Option.none =
      Except.ok ⟨Option.none, some (pyStrip (" Ann ")), Option.none, Option.none,
        Option.none⟩ := by
  have h := c4_readback_amended (" Ann ") (by decide)
  exact ⟨h.1 Option.none (some ("e@x.com")), h.2.1 Option.none ("Tech") (by decide),
    h.2.2.2 Option.none Option.none Option.none Option.none⟩

/-- C10: for each entity class, `find_by_id` on an id matching no stored row
returns `None` (and, the return being an `Except.ok`, raises nothing). -/
theorem c10_find_by_id_missing (db : DB) (i : Nat) :
    ((∀ r ∈ db.authors, r.id ≠ i) → Author.find_by_id i db = Except.ok Option.none) ∧
    ((∀ r ∈ db.magazines, r.id ≠ i) → Magazine.find_by_id i db = Except.ok Option.none) ∧
    ((∀ r ∈ db.articles, r.id ≠ i) → Article.find_by_id i db = Except.ok Option.none) := by
  refine ⟨fun h => ?_, fun h => ?_, fun h => ?_⟩
  · have hf : db.authors.find? (fun r => r.id = i) = Option.none := by
      apply List.find?_eq_none.mpr
      intro x hx
      simpa using h x hx
    simp [Author.find_by_id, hf]
  · have hf : db.magazines.find? (fun r => r.id = i) = Option.none := by
      apply List.find?_eq_none.mpr
      intro x hx
      simpa using h x hx
    simp [Magazine.find_by_id, hf]
  · have hf : db.articles.find? (fun r => r.id = i) = Option.none := by
      apply List.find?_eq_none.mpr
      intro x hx
      simpa using h x hx
    simp [Article.find_by_id, hf]

/-- C10 witness: id 2 was never saved in `sampleDB`. -/
theorem c10_find_by_id_missing_witness :
    Author.find_by_id 2 sampleDB = Except.ok Option.none ∧
    Magazine.find_by_id 2 sampleDB = Except.ok Option.none ∧
    Article.find_by_id 2 sampleDB = Except.ok Option.none := by
  have h := c10_find_by_id_missing sampleDB 2
  exact ⟨h.1 (by decide), h.2.1 (by decide), h.2.2 (by decide)⟩

/-- C6: `Article.save` raises its precondition `ValueError` when the author
or the magazine reference is absent — the check runs before any database
access, so the database is untouched (the model returns the error without
producing a new state).  With both references present it INSERTs a fresh row
when `id` is `None` (assigning the new id to the entity) and UPDATEs the row
matching `id` otherwise, in both cases persisting `author.id` and
`magazine.id` in the foreign-key columns. -/
theorem c6_article_save_spec (art : Article) (db : DB) :
    ((art.author = Option.none ∨ art.magazine = Option.none) →
      Article.save art db =
        Except.error ("Article must have an author and a magazine before saving.")) ∧
    (∀ au mag t aid mid, art.author = some au → art.magazine = some mag →
      art.id = Option.none → art.title = some t → au.id = some aid →
      mag.id = some mid →
      db.authors.any (fun r => r.id = aid) = true →
      db.magazines.any (fun r => r.id = mid) = true →
      Article.save art db = Except.ok ({ art with id := some db.nextArticleId },
        { db with
            articles := db.articles ++ [⟨db.nextArticleId, t, art.content, aid, mid⟩],
            nextArticleId := db.nextArticleId + 1 })) ∧
    (∀ au mag t aid mid i, art.author = some au → art.magazine = some mag →
      art.id = some i → art.title = some t → au.id = some aid → mag.id = some mid →
      db.articles.any (fun r => r.id = i) = true →
      db.authors.any (fun r => r.id = aid) = true →
      db.magazines.any (fun r => r.id = mid) = true →
      Article.save art db = Except.ok (art,
        { db with articles := db.articles.map
                    (fun r => if r.id = i then ⟨i, t, art.content, aid, mid⟩ else r) })) := by
  refine ⟨fun h => ?_, fun au mag t aid mid h1 h2 h3 h4 h5 h6 h7 h8 => ?_,
    fun au mag t aid mid i h1 h2 h3 h4 h5 h6 h7 h8 h9 => ?_⟩
  · rcases h with h | h
    · cases hm : art.magazine <;> simp [Article.save, h, hm]
    · cases ha : art.author <;> simp [Article.save, h, ha]
  · simp [Article.save, h1, h2, h3, h4, h5, h6, h7, h8]
  · simp [Article.save, h1, h2, h3, h4, h5, h6, h7, h8, h9]

/-- C6 witness: over `sampleDB`, an article without an author fails with the
precondition error; a fresh article linked to the stored author and magazine
inserts row 2; re-saving an article whose id is 1 updates row 1 in place. -/
theorem c6_article_save_spec_witness :
    Article.save ⟨Option.none, some ("Hi"), Option.none, Option.none,
        some ⟨some 1, some ("Tech Weekly"), some ("Technology")⟩⟩ sampleDB =
      Except.error ("Article must have an author and a magazine before saving.") ∧
    Article.save ⟨Option.none, some ("Hi"), Option.none,
        some ⟨some 1, some ("Ann"), some ("ann@x.com")⟩,
        some ⟨some 1, some ("Tech Weekly"), some ("Technology")⟩⟩ sampleDB =
      Except.ok (⟨some 2, some ("Hi"), Option.none,
          some ⟨some 1, some ("Ann"), some ("ann@x.com")⟩,
          some ⟨some 1, some ("Tech Weekly"), some ("Technology")⟩⟩,
        ⟨[⟨1, "Ann", "ann@x.com"⟩], [⟨1, "Tech Weekly", "Technology"⟩],
         [⟨1, "Hello", some "body", 1, 1⟩, ⟨2, "Hi", Option.none, 1, 1⟩], 2, 2, 3⟩) ∧
    Article.save ⟨some 1, some ("Bye"), Option.none,
        some ⟨some 1, some ("Ann"), some ("ann@x.com")⟩,
        some ⟨some 1, some ("Tech Weekly"), some ("Technology")⟩⟩ sampleDB =
      Except.ok (⟨some 1, some ("Bye"), Option.none,
          some ⟨some 1, some ("Ann"), some ("ann@x.com")⟩,
          some ⟨some 1, some ("Tech Weekly"), some ("Technology")⟩⟩,
        ⟨[⟨1, "Ann", "ann@x.com"⟩], [⟨1, "Tech Weekly", "Technology"⟩],
         [⟨1, "Bye", Option.none, 1, 1⟩], 2, 2, 2⟩) := by
  refine ⟨?_, ?_, ?_⟩
  · exact (c6_article_save_spec ⟨Option.none, some ("Hi"), Option.none, Option.none,
      some ⟨some 1, some ("Tech Weekly"), some ("Technology")⟩⟩ sampleDB).1
      (Or.inl rfl)
  · exact (c6_article_save_spec ⟨Option.none, some ("Hi"), Option.none,
      some ⟨some 1, some ("Ann"), some ("ann@x.com")⟩,
      some ⟨some 1, some ("Tech Weekly"), some ("Technology")⟩⟩ sampleDB).2.1
      _ _ _ 1 1 rfl rfl rfl rfl rfl rfl (by decide) (by decide)
  · exact (c6_article_save_spec ⟨some 1, some ("Bye"), Option.none,
      some ⟨some 1, some ("Ann"), some ("ann@x.com")⟩,
      some ⟨some 1, some ("Tech Weekly"), some ("Technology")⟩⟩ sampleDB).2.2
      _ _ _ 1 1 1 rfl rfl rfl rfl rfl rfl (by decide) (by decide) (by decide)

/-- C7: `Author.add_article` with a non-Magazine argument raises `TypeError`
before constructing or saving anything (the model returns the error without
producing a new state, matching the source, where the `isinstance` check
precedes every database access).  With a `Magazine` argument and a valid
title it constructs `Article(title, content="", author=self,
magazine=magazine)`, saves it (new row, fresh id), and returns it. -/
theorem c7_add_article_spec (au : Author) (db : DB) :
    (∀ title, Author.add_article au MagazineArg.notMagazine title db =
      Except.error ("magazine must be a Magazine instance.")) ∧
    (∀ m t aid mid, au.id = some aid → m.id = some mid → ¬ pyStrip t = "" →
      db.authors.any (fun r => r.id = aid) = true →
      db.magazines.any (fun r => r.id = mid) = true →
      Author.add_article au (MagazineArg.mag m) (some t) db =
        Except.ok
          (⟨some db.nextArticleId, some (pyStrip t), some (""), some au, some m⟩,
           { db with
               articles := db.articles ++
                 [⟨db.nextArticleId, pyStrip t, some (""), aid, mid⟩],
               nextArticleId := db.nextArticleId + 1 })) := by
  refine ⟨fun title => rfl, fun m t aid mid h1 h2 h3 h4 h5 => ?_⟩
  simp [Author.add_article, Article.init, h3, Article.save, h1, h2, h4, h5,
    Bind.bind, Except.bind]

/-- C7 witness: the stored author adds `" Hi "` to the stored magazine of
`sampleDB`; the persisted article carries the stripped title, empty content
and both foreign keys. -/
theorem c7_add_article_spec_witness :
    Author.add_article ⟨some 1, some ("Ann"), some ("ann@x.com")⟩
        MagazineArg.notMagazine (some (" Hi ")) sampleDB =
      Except.error ("magazine must be a Magazine instance.") ∧
    Author.add_article ⟨some 1, some ("Ann"), some ("ann@x.com")⟩
        (MagazineArg.mag ⟨some 1, some ("Tech Weekly"), some ("Technology")⟩)
        (some (" Hi ")) sampleDB =
      Except.ok
        (⟨some 2, some (pyStrip (" Hi ")), some (""),
          some ⟨some 1, some ("Ann"), some ("ann@x.com")⟩,
          some ⟨some 1, some ("Tech Weekly"), some ("Technology")⟩⟩,
         ⟨[⟨1, "Ann", "ann@x.com"⟩], [⟨1, "Tech Weekly", "Technology"⟩],
          [⟨1, "Hello", some "body", 1, 1⟩, ⟨2, pyStrip (" Hi "), some "", 1, 1⟩],
          2, 2, 3⟩) := by
  constructor
  · exact (c7_add_article_spec ⟨some 1, some ("Ann"), some ("ann@x.com")⟩ sampleDB).1
      (some (" Hi "))
  · exact (c7_add_article_spec ⟨some 1, some ("Ann"), some ("ann@x.com")⟩ sampleDB).2
      ⟨some 1, some ("Tech Weekly"), some ("Technology")⟩ (" Hi ") 1 1 rfl rfl
      (by decide) (by decide) (by decide)

/-- Helper: an UPDATE targeting an id no row carries leaves the table
unchanged. -/
theorem map_ite_id {α : Type} (idf : α → Nat) (i : Nat) (g : α) (l : List α)
    (h : ∀ a ∈ l, idf a ≠ i) :
    (l.map (fun a => if idf a = i then g else a)) = l := by
  induction l with
  | nil => rfl
  | cons x xs ih =>
    have hx : ¬ (idf x = i) := h x (List.mem_cons_self x xs)
    rw [List.map_cons, if_neg hx, ih (fun a ha => h a (List.mem_cons_of_mem x ha))]

/-- Helper: filtering for an id no row carries yields nothing. -/
theorem filter_idf_eq_nil {α : Type} (idf : α → Nat) (i : Nat) (l : List α)
    (h : ∀ a ∈ l, idf a ≠ i) :
    (l.filter (fun a => idf a = i)) = [] := by
  rw [List.filter_eq_nil_iff]
  intro a ha
  simpa using h a ha

/-- C8: for each entity class, saving a new in-memory entity (id `None`)
succeeds (under the schema's constraints: a present name/email for authors
— the email fresh per its UNIQUE column —, present name/category for
magazines, and an existing author and magazine for articles), assigning the
table's next `AUTOINCREMENT` value — a non-null id carried by no existing
row — and saving the same in-memory entity again runs an UPDATE, after
which exactly one row carries that id. -/
theorem c8_save_twice_spec (db : DB) :
    (∀ (a : Author) (n e : String),
      a.id = Option.none → a.name = some n → a.email = some e →
      (∀ r ∈ db.authors, r.id < db.nextAuthorId) →
      db.authors.any (fun r => r.email = e) = false →
      ∃ db2,
        Author.save a db = Except.ok ({ a with id := some db.nextAuthorId },
          { db with authors := db.authors ++ [⟨db.nextAuthorId, n, e⟩],
                    nextAuthorId := db.nextAuthorId + 1 }) ∧
        (∀ r ∈ db.authors, r.id ≠ db.nextAuthorId) ∧
        Author.save { a with id := some db.nextAuthorId }
            { db with authors := db.authors ++ [⟨db.nextAuthorId, n, e⟩],
                      nextAuthorId := db.nextAuthorId + 1 } =
          Except.ok ({ a with id := some db.nextAuthorId }, db2) ∧
        (db2.authors.filter (fun r => r.id = db.nextAuthorId)).length = 1) ∧
    (∀ (m : Magazine) (n c : String),
      m.id = Option.none → m.name = some n → m.category = some c →
      (∀ r ∈ db.magazines, r.id < db.nextMagazineId) →
      ∃ db2,
        Magazine.save m db = Except.ok ({ m with id := some db.nextMagazineId },
          { db with magazines := db.magazines ++ [⟨db.nextMagazineId, n, c⟩],
                    nextMagazineId := db.nextMagazineId + 1 }) ∧
        (∀ r ∈ db.magazines, r.id ≠ db.nextMagazineId) ∧
        Magazine.save { m with id := some db.nextMagazineId }
            { db with magazines := db.magazines ++ [⟨db.nextMagazineId, n, c⟩],
                      nextMagazineId := db.nextMagazineId + 1 } =
          Except.ok ({ m with id := some db.nextMagazineId }, db2) ∧
        (db2.magazines.filter (fun r => r.id = db.nextMagazineId)).length = 1) ∧
    (∀ (art : Article) (au : Author) (mag : Magazine) (t : String) (aid mid : Nat),
      art.id = Option.none → art.author = some au → art.magazine = some mag →
      art.title = some t → au.id = some aid → mag.id = some mid →
      db.authors.any (fun r => r.id = aid) = true →
      db.magazines.any (fun r => r.id = mid) = true →
      (∀ r ∈ db.articles, r.id < db.nextArticleId) →
      ∃ db2,
        Article.save art db = Except.ok ({ art with id := some db.nextArticleId },
          { db with articles := db.articles ++
                      [⟨db.nextArticleId, t, art.content, aid, mid⟩],
                    nextArticleId := db.nextArticleId + 1 }) ∧
        (∀ r ∈ db.articles, r.id ≠ db.nextArticleId) ∧
        Article.save { art with id := some db.nextArticleId }
            { db with articles := db.articles ++
                        [⟨db.nextArticleId, t, art.content, aid, mid⟩],
                      nextArticleId := db.nextArticleId + 1 } =
          Except.ok ({ art with id := some db.nextArticleId }, db2) ∧
        (db2.articles.filter (fun r => r.id = db.nextArticleId)).length = 1) := by
  refine ⟨?_, ?_, ?_⟩
  · intro a n e h1 h2 h3 hfresh hem
    have hne : ∀ r ∈ db.authors, r.id ≠ db.nextAuthorId :=
      fun r hr => Nat.ne_of_lt (hfresh r hr)
    have hem' : ∀ r ∈ db.authors, ¬ (r.email = e) := by
      intro r hr
      simpa using (List.any_eq_false.mp hem) r hr
    refine ⟨{ db with authors := db.authors ++ [⟨db.nextAuthorId, n, e⟩],
                      nextAuthorId := db.nextAuthorId + 1 }, ?_, hne, ?_, ?_⟩
    · simp [Author.save, h1, h2, h3, hem]
    · have huni : ((db.authors ++ [(⟨db.nextAuthorId, n, e⟩ : AuthorRow)]).any
          (fun r => r.id ≠ db.nextAuthorId ∧ r.email = e)) = false := by
        rw [List.any_eq_false]
        intro r hr
        rcases List.mem_append.mp hr with hr | hr
        · simpa using fun _ => hem' r hr
        · simp at hr
          simp [hr]
      have hupd := map_ite_id AuthorRow.id db.nextAuthorId
        (⟨db.nextAuthorId, n, e⟩ : AuthorRow) db.authors hne
      simp [Author.save, h2, h3, huni, hupd]
      exact fun x hx _ => hem' x hx
    · have hfil := filter_idf_eq_nil AuthorRow.id db.nextAuthorId db.authors hne
      simp [List.filter_append, hfil]
  · intro m n c h1 h2 h3 hfresh
    have hne : ∀ r ∈ db.magazines, r.id ≠ db.nextMagazineId :=
      fun r hr => Nat.ne_of_lt (hfresh r hr)
    refine ⟨{ db with magazines := db.magazines ++ [⟨db.nextMagazineId, n, c⟩],
                      nextMagazineId := db.nextMagazineId + 1 }, ?_, hne, ?_, ?_⟩
    · simp [Magazine.save, h1, h2, h3]
    · have hupd := map_ite_id MagazineRow.id db.nextMagazineId
        (⟨db.nextMagazineId, n, c⟩ : MagazineRow) db.magazines hne
      simp [Magazine.save, h2, h3, hupd]
    · have hfil := filter_idf_eq_nil MagazineRow.id db.nextMagazineId db.magazines hne
      simp [List.filter_append, hfil]
  · intro art au mag t aid mid h1 h2 h3 h4 h5 h6 h7 h8 hfresh
    have hne : ∀ r ∈ db.articles, r.id ≠ db.nextArticleId :=
      fun r hr => Nat.ne_of_lt (hfresh r hr)
    refine ⟨{ db with articles := db.articles ++
                        [⟨db.nextArticleId, t, art.content, aid, mid⟩],
                      nextArticleId := db.nextArticleId + 1 }, ?_, hne, ?_, ?_⟩
    · simp [Article.save, h1, h2, h3, h4, h5, h6, h7, h8]
    · have hupd := map_ite_id ArticleRow.id db.nextArticleId
        (⟨db.nextArticleId, t, art.content, aid, mid⟩ : ArticleRow) db.articles hne
      simp [Article.save, h2, h3, h4, h5, h6, h7, h8, hupd]
    · have hfil := filter_idf_eq_nil ArticleRow.id db.nextArticleId db.articles hne
      simp [List.filter_append, hfil]

/-- C8 witness over `sampleDB`: a fresh author (new, unique email), a fresh
magazine and a fresh article each receive id 2, which no stored row carried,
and a second save keeps exactly one row with id 2. -/
theorem c8_save_twice_spec_witness :
    (∃ db2,
      Author.save ⟨Option.none, some ("Bob"), some ("bob@x.com")⟩ sampleDB =
        Except.ok (⟨some 2, some ("Bob"), some ("bob@x.com")⟩,
          ⟨[⟨1, "Ann", "ann@x.com"⟩, ⟨2, "Bob", "bob@x.com"⟩],
           [⟨1, "Tech Weekly", "Technology"⟩], [⟨1, "Hello", some "body", 1, 1⟩],
           3, 2, 2⟩) ∧
      (∀ r ∈ sampleDB.authors, r.id ≠ 2) ∧
      Author.save ⟨some 2, some ("Bob"), some ("bob@x.com")⟩
          ⟨[⟨1, "Ann", "ann@x.com"⟩, ⟨2, "Bob", "bob@x.com"⟩],
           [⟨1, "Tech Weekly", "Technology"⟩], [⟨1, "Hello", some "body", 1, 1⟩],
           3, 2, 2⟩ =
        Except.ok (⟨some 2, some ("Bob"), some ("bob@x.com")⟩, db2) ∧
      (db2.authors.filter (fun r => r.id = 2)).length = 1) ∧
    (∃ db2,
      Magazine.save ⟨Option.none, some ("Cars"), some ("Auto")⟩ sampleDB =
        Except.ok (⟨some 2, some ("Cars"), some ("Auto")⟩,
          ⟨[⟨1, "Ann", "ann@x.com"⟩],
           [⟨1, "Tech Weekly", "Technology"⟩, ⟨2, "Cars", "Auto"⟩],
           [⟨1, "Hello", some "body", 1, 1⟩], 2, 3, 2⟩) ∧
      (∀ r ∈ sampleDB.magazines, r.id ≠ 2) ∧
      Magazine.save ⟨some 2, some ("Cars"), some ("Auto")⟩
          ⟨[⟨1, "Ann", "ann@x.com"⟩],
           [⟨1, "Tech Weekly", "Technology"⟩, ⟨2, "Cars", "Auto"⟩],
           [⟨1, "Hello", some "body", 1, 1⟩], 2, 3, 2⟩ =
        Except.ok (⟨some 2, some ("Cars"), some ("Auto")⟩, db2) ∧
      (db2.magazines.filter (fun r => r.id = 2)).length = 1) ∧
    (∃ db2,
      Article.save ⟨Option.none, some ("Tale"), Option.none,
          some ⟨some 1, some ("Ann"), some ("ann@x.com")⟩,
          some ⟨some 1, some ("Tech Weekly"), some ("Technology")⟩⟩ sampleDB =
        Except.ok (⟨some 2, some ("Tale"), Option.none,
            some ⟨some 1, some ("Ann"), some ("ann@x.com")⟩,
            some ⟨some 1, some ("Tech Weekly"), some ("Technology")⟩⟩,
          ⟨[⟨1, "Ann", "ann@x.com"⟩], [⟨1, "Tech Weekly", "Technology"⟩],
           [⟨1, "Hello", some "body", 1, 1⟩, ⟨2, "Tale", Option.none, 1, 1⟩],
           2, 2, 3⟩) ∧
      (∀ r ∈ sampleDB.articles, r.id ≠ 2) ∧
      Article.save ⟨some 2, some ("Tale"), Option.none,
          some ⟨some 1, some ("Ann"), some ("ann@x.com")⟩,
          some ⟨some 1, some ("Tech Weekly"), some ("Technology")⟩⟩
          ⟨[⟨1, "Ann", "ann@x.com"⟩], [⟨1, "Tech Weekly", "Technology"⟩],
           [⟨1, "Hello", some "body", 1, 1⟩, ⟨2, "Tale", Option.none, 1, 1⟩],
           2, 2, 3⟩ =
        Except.ok (⟨some 2, some ("Tale"), Option.none,
            some ⟨some 1, some ("Ann"), some ("ann@x.com")⟩,
            some ⟨some 1, some ("Tech Weekly"), some ("Technology")⟩⟩, db2) ∧
      (db2.articles.filter (fun r => r.id = 2)).length = 1) := by
  have h := c8_save_twice_spec sampleDB
  refine ⟨?_, ?_, ?_⟩
  · exact h.1 ⟨Option.none, some ("Bob"), some ("bob@x.com")⟩ ("Bob") ("bob@x.com")
      rfl rfl rfl (by decide) (by decide)
  · exact h.2.1 ⟨Option.none, some ("Cars"), some ("Auto")⟩ ("Cars") ("Auto")
      rfl rfl rfl (by decide)
  · exact h.2.2 ⟨Option.none, some ("Tale"), Option.none,
      some ⟨some 1, some ("Ann"), some ("ann@x.com")⟩,
      some ⟨some 1, some ("Tech Weekly"), some ("Technology")⟩⟩
      ⟨some 1, some ("Ann"), some ("ann@x.com")⟩
      ⟨some 1, some ("Tech Weekly"), some ("Technology")⟩ ("Tale") 1 1
      rfl rfl rfl rfl rfl rfl (by decide) (by decide) (by decide)

/-- Helper: the running best of `topGroup`'s fold is the seed or a member of
the folded list. -/
theorem foldl_best_mem (ps : List (Nat × Nat)) (p : Nat × Nat) :
    ps.foldl (fun best q => if best.2 < q.2 then q else best) p = p ∨
    ps.foldl (fun best q => if best.2 < q.2 then q else best) p ∈ ps := by
  induction ps generalizing p with
  | nil => exact Or.inl rfl
  | cons x xs ih =>
    rw [List.foldl_cons]
    by_cases hc : p.2 < x.2
    · rw [if_pos hc]
      rcases ih x with h | h
      · exact Or.inr (List.mem_cons.mpr (Or.inl h))
      · exact Or.inr (List.mem_cons_of_mem x h)
    · rw [if_neg hc]
      rcases ih p with h | h
      · exact Or.inl h
      · exact Or.inr (List.mem_cons_of_mem x h)

/-- Helper: the running best of `topGroup`'s fold dominates the seed and
every member of the folded list. -/
theorem foldl_best_ge (ps : List (Nat × Nat)) (p : Nat × Nat) :
    p.2 ≤ (ps.foldl (fun best q => if best.2 < q.2 then q else best) p).2 ∧
    ∀ q ∈ ps, q.2 ≤ (ps.foldl (fun best q => if best.2 < q.2 then q else best) p).2 := by
  induction ps generalizing p with
  | nil => exact ⟨Nat.le_refl _, fun q hq => absurd hq (List.not_mem_nil q)⟩
  | cons x xs ih =>
    rw [List.foldl_cons]
    have hseed : p.2 ≤ (if p.2 < x.2 then x else p).2 := by
      by_cases hc : p.2 < x.2
      · rw [if_pos hc]; exact Nat.le_of_lt hc
      · rw [if_neg hc]
    have hx : x.2 ≤ (if p.2 < x.2 then x else p).2 := by
      by_cases hc : p.2 < x.2
      · rw [if_pos hc]
      · rw [if_neg hc]; exact Nat.le_of_not_lt hc
    refine ⟨Nat.le_trans hseed (ih _).1, fun q hq => ?_⟩
    rcases List.mem_cons.mp hq with h1 | h1
    · subst h1
      exact Nat.le_trans hx (ih _).1
    · exact (ih _).2 q h1

/-- Helper: the row `topGroup` returns is one of the grouped rows and its
count is maximal among them. -/
theorem topGroup_spec (l : List (Nat × Nat)) (p : Nat × Nat)
    (h : topGroup l = some p) : p ∈ l ∧ ∀ q ∈ l, q.2 ≤ p.2 := by
  cases l with
  | nil => cases h
  | cons x xs =>
    have hp : xs.foldl (fun best q => if best.2 < q.2 then q else best) x = p := by
      simpa [topGroup] using h
    constructor
    · rcases foldl_best_mem xs x with h1 | h1
      · exact List.mem_cons.mpr (Or.inl (hp ▸ h1.symm).symm)
      · exact List.mem_cons_of_mem x (hp ▸ h1)
    · intro q hq
      rcases List.mem_cons.mp hq with h1 | h1
      · exact h1 ▸ hp ▸ (foldl_best_ge xs x).1
      · exact hp ▸ (foldl_best_ge xs x).2 q h1

/-- C1: `Magazine.top_publisher` returns `None` when the `articles` table is
empty; and whenever a stored magazine's article count strictly exceeds that
of every other magazine id, it returns exactly that magazine (ids unique,
its stored title and category passing re-validation on load). -/
theorem c1_top_publisher_spec (db : DB) :
    (db.articles = [] → Magazine.top_publisher db = Except.ok Option.none) ∧
    (∀ r ∈ db.magazines,
      (db.magazines.map MagazineRow.id).Nodup →
      ¬ pyStrip r.title = "" → ¬ pyStrip r.category = "" →
      0 < articleCountOfMagazine db r.id →
      (∀ mid, mid ≠ r.id →
        articleCountOfMagazine db mid < articleCountOfMagazine db r.id) →
      Magazine.top_publisher db = Except.ok
        (some ⟨some r.id, some (pyStrip r.title), some (pyStrip r.category)⟩)) := by
  constructor
  · intro h
    simp [Magazine.top_publisher, magazineGroups, h, topGroup]
  · intro r hr hPK ht hc hpos hmax
    have hpos' : 0 < (db.articles.filter (fun a => a.magazine_id = r.id)).length := hpos
    obtain ⟨a, ha⟩ := List.exists_mem_of_length_pos hpos'
    have hmem : r.id ∈ (db.articles.map (fun a => a.magazine_id)).dedup := by
      rw [List.mem_dedup]
      have h1 := List.mem_filter.mp ha
      have h2 : a.magazine_id = r.id := by simpa using h1.2
      exact h2 ▸ List.mem_map_of_mem (fun a => a.magazine_id) h1.1
    have hgrp : (r.id, articleCountOfMagazine db r.id) ∈ magazineGroups db :=
      List.mem_map_of_mem (fun mid => (mid, articleCountOfMagazine db mid)) hmem
    cases hg : magazineGroups db with
    | nil =>
      rw [hg] at hgrp
      cases hgrp
    | cons x xs =>
      have htop : topGroup (magazineGroups db) =
          some (xs.foldl (fun best q => if best.2 < q.2 then q else best) x) := by
        rw [hg]
        rfl
      have hspec := topGroup_spec (magazineGroups db)
        (xs.foldl (fun best q => if best.2 < q.2 then q else best) x) htop
      have hspec1 : (xs.foldl (fun best q => if best.2 < q.2 then q else best) x) ∈
          ((db.articles.map (fun a => a.magazine_id)).dedup).map
            (fun mid => (mid, articleCountOfMagazine db mid)) := hspec.1
      obtain ⟨mid, hmid, hpe⟩ := List.mem_map.mp hspec1
      have hle : articleCountOfMagazine db r.id ≤
          (xs.foldl (fun best q => if best.2 < q.2 then q else best) x).2 :=
        hspec.2 _ hgrp
      have hmid_eq : mid = r.id := by
        by_contra hne
        have hlt := hmax mid hne
        rw [← hpe] at hle
        exact absurd (Nat.lt_of_le_of_lt hle hlt) (Nat.lt_irrefl _)
      have hpair : (xs.foldl (fun best q => if best.2 < q.2 then q else best) x) =
          (r.id, articleCountOfMagazine db r.id) := by
        rw [← hpe, hmid_eq]
      unfold Magazine.top_publisher
      rw [htop, hpair]
      exact magazine_find_by_id_mem db r hPK hr ht hc

/-- C1 witness: on the empty database `top_publisher` answers `None`; on
`sampleDB` the only magazine (one article, every other id zero) wins. -/
theorem c1_top_publisher_spec_witness :
    Magazine.top_publisher emptyDB = Except.ok Option.none ∧
    Magazine.top_publisher sampleDB = Except.ok
      (some ⟨some 1, some (pyStrip ("Tech Weekly")), some (pyStrip ("Technology"))⟩) := by
  constructor
  · exact (c1_top_publisher_spec emptyDB).1 rfl
  · refine (c1_top_publisher_spec sampleDB).2 ⟨1, "Tech Weekly", "Technology"⟩
      (by decide) (by decide) (by decide) (by decide) (by decide) ?_
    intro mid hne
    have h1 : ¬ ((1 : Nat) = mid) := fun h => hne h.symm
    simp [articleCountOfMagazine, sampleDB, h1]

/-- Helper: a `mapM` over `Except` whose steps all succeed pointwise
returns the pointwise results. -/
theorem mapM_ok_of_eq {α β : Type} (f : α → Except String β) (g : α → β)
    (l : List α) (h : ∀ a ∈ l, f a = Except.ok (g a)) :
    l.mapM f = Except.ok (l.map g) := by
  induction l with
  | nil => rfl
  | cons a as ih =>
    rw [List.mapM_cons, h a (List.mem_cons_self a as)]
    show as.mapM f >>= (fun xs => pure (g a :: xs)) = Except.ok ((a :: as).map g)
    rw [ih (fun x hx => h x (List.mem_cons_of_mem a hx))]
    rfl

/-- C2: under the invariants the schema maintains (unique author ids, every
article's `author_id` present in `authors` — `PRAGMA foreign_keys = ON` —
and stored names passing re-validation), `contributing_authors` succeeds
and returns exactly the authors having strictly more than 2 articles in
this magazine: an author with 2 or fewer is absent, and every returned
element is such an author.  The computation itself — one group-count query
followed by `find_by_id` on each returned id — is the definition of
`Magazine.contributing_authors`. -/
theorem c2_contributing_authors_spec (m : Magazine) (db : DB)
    (hPK : (db.authors.map AuthorRow.id).Nodup)
    (hFK : ∀ art ∈ db.articles, ∃ r ∈ db.authors, r.id = art.author_id)
    (hname : ∀ r ∈ db.authors, ¬ pyStrip r.name = "") :
    ∃ l, Magazine.contributing_authors m db = Except.ok l ∧
      (∀ r ∈ db.authors,
        ((some (⟨some r.id, some r.name, some r.email⟩ : Author)) ∈ l ↔
          2 < articleCountByAuthorIn db m.id r.id)) ∧
      (∀ x ∈ l, ∃ r ∈ db.authors,
        x = some (⟨some r.id, some r.name, some r.email⟩ : Author) ∧
        2 < articleCountByAuthorIn db m.id r.id) := by
  have hresolve : ∀ aid : Nat, Author.find_by_id aid db = Except.ok
      ((db.authors.find? (fun row => row.id = aid)).map
        (fun row => (⟨some row.id, some row.name, some row.email⟩ : Author))) := by
    intro aid
    cases hf : db.authors.find? (fun row => row.id = aid) with
    | none => simp [Author.find_by_id, hf]
    | some r =>
      have hrmem : r ∈ db.authors := List.mem_of_find?_eq_some hf
      simp [Author.find_by_id, hf, Author.new_from_db, Author.init,
        hname r hrmem, Except.map]
  refine ⟨(((articlesOfMagazine db m.id).map (fun a => a.author_id)).dedup.filter
      (fun aid => 2 < ((articlesOfMagazine db m.id).filter
        (fun a => a.author_id = aid)).length)).map
      (fun aid => (db.authors.find? (fun row => row.id = aid)).map
        (fun row => (⟨some row.id, some row.name, some row.email⟩ : Author))),
    ?_, ?_, ?_⟩
  · exact mapM_ok_of_eq _ _ _ (fun aid _ => hresolve aid)
  · intro r hr
    constructor
    · intro hx
      obtain ⟨aid, haid, heq⟩ := List.mem_map.mp hx
      cases hf : db.authors.find? (fun row => row.id = aid) with
      | none =>
        rw [hf] at heq
        simp at heq
      | some row =>
        rw [hf] at heq
        simp only [Option.map_some', Option.some.injEq, Author.mk.injEq] at heq
        have hrowid : row.id = aid := by simpa using List.find?_some hf
        have hid : row.id = r.id := by simpa using heq.1
        have haideq : aid = r.id := hrowid.symm.trans hid
        subst haideq
        have hcond := (List.mem_filter.mp haid).2
        simpa [articleCountByAuthorIn] using hcond
    · intro hcnt
      simp only [articleCountByAuthorIn] at hcnt
      have hpos : 0 < ((articlesOfMagazine db m.id).filter
          (fun a => a.author_id = r.id)).length := by omega
      obtain ⟨a, ha⟩ := List.exists_mem_of_length_pos hpos
      have ha' := List.mem_filter.mp ha
      have haid : a.author_id = r.id := by simpa using ha'.2
      have hdedup : r.id ∈ ((articlesOfMagazine db m.id).map
          (fun a => a.author_id)).dedup := by
        rw [List.mem_dedup]
        exact haid ▸ List.mem_map_of_mem (fun a => a.author_id) ha'.1
      have hbig : r.id ∈ ((articlesOfMagazine db m.id).map
          (fun a => a.author_id)).dedup.filter
          (fun aid => 2 < ((articlesOfMagazine db m.id).filter
            (fun a => a.author_id = aid)).length) := by
        rw [List.mem_filter]
        exact ⟨hdedup, by simpa using hcnt⟩
      refine List.mem_map.mpr ⟨r.id, hbig, ?_⟩
      rw [find_eq_of_mem_nodup AuthorRow.id db.authors r hPK hr]
      rfl
  · intro x hx
    obtain ⟨aid, haid, heq⟩ := List.mem_map.mp hx
    have hfil := List.mem_filter.mp haid
    obtain ⟨a, ha, haid2⟩ := List.mem_map.mp (List.mem_dedup.mp hfil.1)
    have hamem : a ∈ db.articles := (List.mem_filter.mp ha).1
    obtain ⟨r, hrmem, hrid⟩ := hFK a hamem
    have hrid2 : r.id = aid := hrid.trans haid2
    refine ⟨r, hrmem, ?_, ?_⟩
    · rw [← heq, ← hrid2, find_eq_of_mem_nodup AuthorRow.id db.authors r hPK hrmem]
      rfl
    · have hcond : 2 < ((articlesOfMagazine db m.id).filter
          (fun a => a.author_id = aid)).length := by simpa using hfil.2
      rw [← hrid2] at hcond
      simpa [articleCountByAuthorIn] using hcond

/-- C2 witness on `sampleDB3`: author 1 (three articles in magazine 1) is
returned, author 2 (one article) is not, and nothing else is returned. -/
theorem c2_contributing_authors_spec_witness :
    ∃ l, Magazine.contributing_authors
        ⟨some 1, some ("Tech Weekly"), some ("Technology")⟩ sampleDB3 =
      Except.ok l ∧
      (∀ r ∈ sampleDB3.authors,
        ((some (⟨some r.id, some r.name, some r.email⟩ : Author)) ∈ l ↔
          2 < articleCountByAuthorIn sampleDB3 (some 1) r.id)) ∧
      (∀ x ∈ l, ∃ r ∈ sampleDB3.authors,
        x = some (⟨some r.id, some r.name, some r.email⟩ : Author) ∧
        2 < articleCountByAuthorIn sampleDB3 (some 1) r.id) :=
  c2_contributing_authors_spec ⟨some 1, some ("Tech Weekly"), some ("Technology")⟩
    sampleDB3 (by decide) (by decide) (by decide)
